import Mathlib

/-!
Shallow embedding of the iptables rule-generation and sequencing engine of
linkerd2-proxy-init (`iptables/iptables.go`), together with proofs about its
composed mutation sequences and execution driver.

Modelling conventions:
* A command built by `exec.Command(name, arg…)` is modelled by its argument
  vector `cmd.Args`, a `List String`, whose head is `name`. Per the os/exec
  semantics, the program actually executed is `cmd.Path`, fixed from `name`
  at construction time; the driver later mutates only `cmd.Args` (the `-w`
  append and the nsenter prepend), never `cmd.Path`, so the executed program
  of a built command is the head of its original argument vector
  (`executedPath` below) even after wrapping.
* The process-global `ExecutionTraceID` (computed once per run from the unix
  time) is threaded explicitly as a `tid : String` parameter into every
  comment-producing constructor, mirroring the single global value of one run.
* The execution boundary (`cmd.CombinedOutput`) is modelled by an oracle
  `o : Nat → Bool` giving the success of the n-th dispatched command of the
  run; the driver also records the trace of dispatched (wrapped) argument
  vectors, so that frame properties ("nothing was dispatched") are statable.
* An execution error is identified by the wrapped argument vector of the
  failing command.
-/

namespace ProxyInit

/-- Source `RedirectAllMode` indicates redirecting all ports. -/
def RedirectAllMode : String := "redirect-all"

/-- Source `RedirectListedMode` indicates redirecting a given list of ports. -/
def RedirectListedMode : String := "redirect-listed"

/-- The iptables `PREROUTING` chain name. -/
def IptablesPreroutingChainName : String := "PREROUTING"

/-- The iptables `OUTPUT` chain name. -/
def IptablesOutputChainName : String := "OUTPUT"

/-- The custom OUTPUT-side chain provisioned by the tool. -/
def outputChainName : String := "PROXY_INIT_OUTPUT"

/-- The custom PREROUTING-side chain provisioned by the tool. -/
def redirectChainName : String := "PROXY_INIT_REDIRECT"

/-- The per-run execution trace identifier:
`strconv.Itoa(int(time.Now().Unix()))`, as a function of the unix-seconds
tick at process start. -/
def ExecutionTraceID (nowUnix : Int) : String := toString nowUnix

/-- Source `FirewallConfiguration` specifies how to configure a pod's iptables
(struct `FirewallConfiguration` in the source; Go `int` is modelled as `Int`,
Go `string` as `String`). -/
structure FirewallConfiguration where
  Mode : String
  PortsToRedirectInbound : List Int
  InboundPortsToIgnore : List Int
  OutboundPortsToIgnore : List Int
  ProxyInboundPort : Int
  ProxyOutgoingPort : Int
  ProxyUID : Int
  SimulateOnly : Bool
  NetNs : String
  UseWaitFlag : Bool
  deriving Repr, DecidableEq

/-- Source `formatComment`: `fmt.Sprintf("proxy-init/%s/%s", text, ExecutionTraceID)`. -/
def formatComment (tid text : String) : String :=
  "proxy-init/" ++ text ++ "/" ++ tid

/-- Source `makeIgnoreUserID`: append a RETURN rule matching the owner uid. -/
def makeIgnoreUserID (tid chainName : String) (uid : Int) (comment : String) :
    List String :=
  ["iptables", "-t", "nat", "-A", chainName, "-m", "owner",
   "--uid-owner", toString uid, "-j", "RETURN",
   "-m", "comment", "--comment", formatComment tid comment]

/-- Source `makeCreateNewChain`: create a new chain. -/
def makeCreateNewChain (tid name comment : String) : List String :=
  ["iptables", "-t", "nat", "-N", name,
   "-m", "comment", "--comment", formatComment tid comment]

/-- Source `makeFlushChain`: flush a chain (carries no comment in the source). -/
def makeFlushChain (name : String) : List String :=
  ["iptables", "-t", "nat", "-F", name]

/-- Source `makeDeleteChain`: delete a chain (carries no comment in the source). -/
def makeDeleteChain (name : String) : List String :=
  ["iptables", "-t", "nat", "-X", name]

/-- Source `makeRedirectChainToPort`: unconditional REDIRECT-to-port rule. -/
def makeRedirectChainToPort (tid chainName : String) (portToRedirect : Int)
    (comment : String) : List String :=
  ["iptables", "-t", "nat", "-A", chainName, "-p", "tcp",
   "-j", "REDIRECT", "--to-port", toString portToRedirect,
   "-m", "comment", "--comment", formatComment tid comment]

/-- Source `makeIgnorePort`: RETURN rule matching a destination port. -/
def makeIgnorePort (tid chainName : String) (portToIgnore : Int)
    (comment : String) : List String :=
  ["iptables", "-t", "nat", "-A", chainName, "-p", "tcp",
   "--destination-port", toString portToIgnore, "-j", "RETURN",
   "-m", "comment", "--comment", formatComment tid comment]

/-- Source `makeIgnoreLoopback`: RETURN rule matching the loopback out-interface. -/
def makeIgnoreLoopback (tid chainName comment : String) : List String :=
  ["iptables", "-t", "nat", "-A", chainName, "-o", "lo", "-j", "RETURN",
   "-m", "comment", "--comment", formatComment tid comment]

/-- Source `makeRedirectChainToPortBasedOnDestinationPort`: port-conditional
REDIRECT-to-port rule. -/
def makeRedirectChainToPortBasedOnDestinationPort (tid chainName : String)
    (destinationPort portToRedirect : Int) (comment : String) : List String :=
  ["iptables", "-t", "nat", "-A", chainName, "-p", "tcp",
   "--destination-port", toString destinationPort,
   "-j", "REDIRECT", "--to-port", toString portToRedirect,
   "-m", "comment", "--comment", formatComment tid comment]

/-- Source `makeJumpFromChainToAnotherForAllProtocols`: append (or, for cleanup,
delete) a jump from a hook chain into a custom chain. -/
def makeJumpFromChainToAnotherForAllProtocols
    (tid chainName targetChain comment : String) (delete : Bool) :
    List String :=
  ["iptables", "-t", "nat", if delete then "-D" else "-A", chainName,
   "-j", targetChain, "-m", "comment", "--comment", formatComment tid comment]

/-- Source `makeRedirectChainForOutgoingTraffic`: the hairpin rule — traffic from
the proxy uid, leaving on loopback, not destined to 127.0.0.1/32, jumps into
the inbound-redirect chain. -/
def makeRedirectChainForOutgoingTraffic
    (tid chainName redirectChain : String) (uid : Int) (comment : String) :
    List String :=
  ["iptables", "-t", "nat", "-A", chainName, "-m", "owner",
   "--uid-owner", toString uid, "-o", "lo", "!", "-d 127.0.0.1/32",
   "-j", redirectChain, "-m", "comment", "--comment", formatComment tid comment]

/-- Source `makeShowAllRules`: the diagnostic full-table dump (`iptables-save`). -/
def makeShowAllRules : List String := ["iptables-save"]

/-- Source `addRulesForIgnoredPorts`: one RETURN rule per ignored port, in order
(the `for` loop of the source, with its accumulator made explicit). -/
def addRulesForIgnoredPorts (tid : String) (portsToIgnore : List Int)
    (chainName : String) (commands : List (List String)) :
    List (List String) :=
  match portsToIgnore with
  | [] => commands
  | ignoredPort :: rest =>
      addRulesForIgnoredPorts tid rest chainName
        (commands ++
          [makeIgnorePort tid chainName ignoredPort
            ("ignore-port-" ++ toString ignoredPort)])

/-- The `for` loop of `addRulesForInboundPortRedirect` in RedirectListed
mode, with its accumulator made explicit. -/
def addInboundListedLoop (tid chainName : String) (proxyInboundPort : Int)
    (ports : List Int) (commands : List (List String)) : List (List String) :=
  match ports with
  | [] => commands
  | port :: rest =>
      addInboundListedLoop tid chainName proxyInboundPort rest
        (commands ++
          [makeRedirectChainToPortBasedOnDestinationPort tid chainName port
            proxyInboundPort
            ("redirect-port-" ++ toString port ++ "-to-proxy-port")])

/-- Source `addRulesForInboundPortRedirect`: mode dispatch for the inbound
redirection policy. -/
def addRulesForInboundPortRedirect (tid : String)
    (firewallConfiguration : FirewallConfiguration) (chainName : String)
    (commands : List (List String)) : List (List String) :=
  if firewallConfiguration.Mode = RedirectAllMode then
    commands ++
      [makeRedirectChainToPort tid chainName
        firewallConfiguration.ProxyInboundPort
        "redirect-all-incoming-to-proxy-port"]
  else if firewallConfiguration.Mode = RedirectListedMode then
    addInboundListedLoop tid chainName
      firewallConfiguration.ProxyInboundPort
      firewallConfiguration.PortsToRedirectInbound commands
  else
    commands

/-- Source `addIncomingTrafficRules`: the PREROUTING-side (inbound) transaction. -/
def addIncomingTrafficRules (tid : String) (commands : List (List String))
    (firewallConfiguration : FirewallConfiguration) : List (List String) :=
  let commands := commands ++
    [makeCreateNewChain tid redirectChainName "redirect-common-chain"]
  let commands := addRulesForIgnoredPorts tid
    firewallConfiguration.InboundPortsToIgnore redirectChainName commands
  let commands := addRulesForInboundPortRedirect tid firewallConfiguration
    redirectChainName commands
  commands ++
    [makeJumpFromChainToAnotherForAllProtocols tid
      IptablesPreroutingChainName redirectChainName
      "install-proxy-init-prerouting" false]

/-- Source `addOutgoingTrafficRules`: the OUTPUT-side (outbound) transaction. -/
def addOutgoingTrafficRules (tid : String) (commands : List (List String))
    (firewallConfiguration : FirewallConfiguration) : List (List String) :=
  let commands := commands ++
    [makeCreateNewChain tid outputChainName "redirect-common-chain"]
  let commands :=
    if firewallConfiguration.ProxyUID > 0 then
      commands ++
        [makeRedirectChainForOutgoingTraffic tid outputChainName
          redirectChainName firewallConfiguration.ProxyUID
          "redirect-non-loopback-local-traffic",
         makeIgnoreUserID tid outputChainName
          firewallConfiguration.ProxyUID "ignore-proxy-user-id"]
    else commands
  let commands := commands ++
    [makeIgnoreLoopback tid outputChainName "ignore-loopback"]
  let commands := addRulesForIgnoredPorts tid
    firewallConfiguration.OutboundPortsToIgnore outputChainName commands
  let commands := commands ++
    [makeRedirectChainToPort tid outputChainName
      firewallConfiguration.ProxyOutgoingPort
      "redirect-all-outgoing-to-proxy-port"]
  commands ++
    [makeJumpFromChainToAnotherForAllProtocols tid IptablesOutputChainName
      outputChainName "install-proxy-init-output" false]

/-- The full installed command list composed by `ConfigureFirewall`:
`commands = addIncomingTrafficRules(commands, cfg)` followed by
`commands = addOutgoingTrafficRules(commands, cfg)` starting from the empty
slice. -/
def installCommands (tid : String) (cfg : FirewallConfiguration) :
    List (List String) :=
  addOutgoingTrafficRules tid (addIncomingTrafficRules tid [] cfg) cfg

/-- State of the execution boundary: how many commands have been dispatched
so far, and the trace of dispatched (fully wrapped) argument vectors. -/
structure ExecState where
  count : Nat
  trace : List (List String)
  deriving Repr, DecidableEq

/-- The program a dispatched command actually executes: `cmd.Path`, which
`exec.Command(name, …)` fixes from `name` — the head of the built argument
vector — and which `Cmd.Start` runs, taking `cmd.Args` only as the new
process's argv. Neither the `-w` append nor the nsenter prepend in
`executeCommand` (iptables.go:212-227) reassigns `cmd.Path`, so the
executed program of a built command is the head of its original argument
vector, unchanged by the wrapping. -/
def executedPath (builtCmd : List String) : String := builtCmd.headI

/-- The `cmd.Args` transformation applied by `executeCommand` before
dispatch: append `-w` when `UseWaitFlag` is set, then wrap with
`nsenter --net <netNs>` when `NetNs` is non-empty. -/
def wrapCmd (cfg : FirewallConfiguration) (cmd : List String) : List String :=
  let cmd := if cfg.UseWaitFlag then cmd ++ ["-w"] else cmd
  if 0 < cfg.NetNs.length then ["nsenter", "--net", cfg.NetNs] ++ cmd
  else cmd

/-- Source `executeCommand`: under `SimulateOnly` nothing is dispatched and success
is returned; otherwise the wrapped command is dispatched and the oracle's
verdict for this dispatch index decides success. An error is identified by
the wrapped argument vector of the failing command. -/
def executeCommand (cfg : FirewallConfiguration) (o : Nat → Bool)
    (s : ExecState) (cmd : List String) :
    Option (List String) × ExecState :=
  if cfg.SimulateOnly then (none, s)
  else
    let w := wrapCmd cfg cmd
    ((if o s.count then none else some w),
     ⟨s.count + 1, s.trace ++ [w]⟩)

/-- The `for _, cmd := range commands` installation loop of
`ConfigureFirewall`: dispatch each command in order, aborting with the first
error. -/
def runInstall (cfg : FirewallConfiguration) (o : Nat → Bool)
    (s : ExecState) : List (List String) → Option (List String) × ExecState
  | [] => (none, s)
  | c :: rest =>
      match executeCommand cfg o s c with
      | (some e, s') => (some e, s')
      | (none, s') => runInstall cfg o s' rest

/-- The six cleanup-phase commands of `ConfigureFirewall`, in dispatch
order: the two jump-rule deletions, then flush and delete of each custom
chain. -/
def cleanupCommands (tid : String) : List (List String) :=
  [makeJumpFromChainToAnotherForAllProtocols tid IptablesOutputChainName
     outputChainName "install-proxy-init-prerouting" true,
   makeJumpFromChainToAnotherForAllProtocols tid IptablesPreroutingChainName
     redirectChainName "install-proxy-init-prerouting" true,
   makeFlushChain outputChainName,
   makeDeleteChain outputChainName,
   makeFlushChain redirectChainName,
   makeDeleteChain redirectChainName]

/-- Source `ConfigureFirewall`: initial diagnostic dump (fatal on failure), then
the best-effort cleanup phase (errors discarded), then composition of the
installation sequence, then the fail-fast installation loop, then the final
best-effort diagnostic dump. -/
def ConfigureFirewall (tid : String) (cfg : FirewallConfiguration)
    (o : Nat → Bool) : Option (List String) × ExecState :=
  let r0 := executeCommand cfg o ⟨0, []⟩ makeShowAllRules
  if r0.1.isSome then r0
  else
    let s := (executeCommand cfg o r0.2
      (makeJumpFromChainToAnotherForAllProtocols tid IptablesOutputChainName
        outputChainName "install-proxy-init-prerouting" true)).2
    let s := (executeCommand cfg o s
      (makeJumpFromChainToAnotherForAllProtocols tid
        IptablesPreroutingChainName redirectChainName
        "install-proxy-init-prerouting" true)).2
    let s := (executeCommand cfg o s (makeFlushChain outputChainName)).2
    let s := (executeCommand cfg o s (makeDeleteChain outputChainName)).2
    let s := (executeCommand cfg o s (makeFlushChain redirectChainName)).2
    let s := (executeCommand cfg o s (makeDeleteChain redirectChainName)).2
    let rinst := runInstall cfg o s (installCommands tid cfg)
    if rinst.1.isSome then rinst
    else (none, (executeCommand cfg o rinst.2 makeShowAllRules).2)

end ProxyInit

namespace ProxyInit

/-- The ignored-port exemption rules for one chain, in input-list order. -/
def ignorePortRules (tid chainName : String) (ports : List Int) :
    List (List String) :=
  ports.map fun p => makeIgnorePort tid chainName p ("ignore-port-" ++ toString p)

/-- The port-conditional redirect rules of RedirectListed mode, in
input-list order. -/
def listedRedirectRules (tid chainName : String) (proxyInboundPort : Int)
    (ports : List Int) : List (List String) :=
  ports.map fun port =>
    makeRedirectChainToPortBasedOnDestinationPort tid chainName port
      proxyInboundPort ("redirect-port-" ++ toString port ++ "-to-proxy-port")

/-- The mode-dependent inbound redirect rules. -/
def inboundModeRules (tid chainName : String) (cfg : FirewallConfiguration) :
    List (List String) :=
  if cfg.Mode = RedirectAllMode then
    [makeRedirectChainToPort tid chainName cfg.ProxyInboundPort
      "redirect-all-incoming-to-proxy-port"]
  else if cfg.Mode = RedirectListedMode then
    listedRedirectRules tid chainName cfg.ProxyInboundPort
      cfg.PortsToRedirectInbound
  else []

lemma addRulesForIgnoredPorts_eq (tid : String) (ports : List Int)
    (chainName : String) (commands : List (List String)) :
    addRulesForIgnoredPorts tid ports chainName commands =
      commands ++ ignorePortRules tid chainName ports := by
  induction ports generalizing commands with
  | nil => simp [addRulesForIgnoredPorts, ignorePortRules]
  | cons p rest ih =>
      simp [addRulesForIgnoredPorts, ignorePortRules, ih, List.map_cons]

lemma addInboundListedLoop_eq (tid chainName : String)
    (proxyInboundPort : Int) (ports : List Int)
    (commands : List (List String)) :
    addInboundListedLoop tid chainName proxyInboundPort ports commands =
      commands ++ listedRedirectRules tid chainName proxyInboundPort ports := by
  induction ports generalizing commands with
  | nil => simp [addInboundListedLoop, listedRedirectRules]
  | cons p rest ih =>
      simp [addInboundListedLoop, listedRedirectRules, ih, List.map_cons]

lemma addRulesForInboundPortRedirect_eq (tid : String)
    (cfg : FirewallConfiguration) (chainName : String)
    (commands : List (List String)) :
    addRulesForInboundPortRedirect tid cfg chainName commands =
      commands ++ inboundModeRules tid chainName cfg := by
  unfold addRulesForInboundPortRedirect inboundModeRules
  split
  · rfl
  · split
    · exact addInboundListedLoop_eq ..
    · simp

/-- The inbound (PREROUTING-side) transaction, fully expanded. -/
def incomingRules (tid : String) (cfg : FirewallConfiguration) :
    List (List String) :=
  [makeCreateNewChain tid redirectChainName "redirect-common-chain"]
  ++ ignorePortRules tid redirectChainName cfg.InboundPortsToIgnore
  ++ inboundModeRules tid redirectChainName cfg
  ++ [makeJumpFromChainToAnotherForAllProtocols tid
       IptablesPreroutingChainName redirectChainName
       "install-proxy-init-prerouting" false]

/-- The outbound (OUTPUT-side) transaction, fully expanded. -/
def outgoingRules (tid : String) (cfg : FirewallConfiguration) :
    List (List String) :=
  (if cfg.ProxyUID > 0 then
    [makeCreateNewChain tid outputChainName "redirect-common-chain",
     makeRedirectChainForOutgoingTraffic tid outputChainName
       redirectChainName cfg.ProxyUID "redirect-non-loopback-local-traffic",
     makeIgnoreUserID tid outputChainName cfg.ProxyUID
       "ignore-proxy-user-id"]
   else [makeCreateNewChain tid outputChainName "redirect-common-chain"])
  ++ [makeIgnoreLoopback tid outputChainName "ignore-loopback"]
  ++ ignorePortRules tid outputChainName cfg.OutboundPortsToIgnore
  ++ [makeRedirectChainToPort tid outputChainName cfg.ProxyOutgoingPort
       "redirect-all-outgoing-to-proxy-port",
      makeJumpFromChainToAnotherForAllProtocols tid IptablesOutputChainName
       outputChainName "install-proxy-init-output" false]

lemma addIncomingTrafficRules_eq (tid : String)
    (commands : List (List String)) (cfg : FirewallConfiguration) :
    addIncomingTrafficRules tid commands cfg =
      commands ++ incomingRules tid cfg := by
  simp only [addIncomingTrafficRules, incomingRules]
  rw [addRulesForIgnoredPorts_eq, addRulesForInboundPortRedirect_eq]
  simp

lemma addOutgoingTrafficRules_eq (tid : String)
    (commands : List (List String)) (cfg : FirewallConfiguration) :
    addOutgoingTrafficRules tid commands cfg =
      commands ++ outgoingRules tid cfg := by
  simp only [addOutgoingTrafficRules, outgoingRules]
  rw [addRulesForIgnoredPorts_eq]
  split
  · simp
  · simp

lemma installCommands_eq (tid : String) (cfg : FirewallConfiguration) :
    installCommands tid cfg = incomingRules tid cfg ++ outgoingRules tid cfg := by
  unfold installCommands
  rw [addOutgoingTrafficRules_eq, addIncomingTrafficRules_eq]
  simp

end ProxyInit

namespace ProxyInit

/-- The ten decimal digit characters. -/
def decimalChars : List Char :=
  ['0', '1', '2', '3', '4', '5', '6', '7', '8', '9']

lemma digitChar_mem_decimalChars :
    ∀ d < 10, Nat.digitChar d ∈ decimalChars := by decide

lemma digitChar_inj_lt :
    ∀ d < 10, ∀ e < 10, Nat.digitChar d = Nat.digitChar e → d = e := by decide

lemma toDigitsCore_eq_digits (f : Nat) :
    ∀ (n : Nat) (ds : List Char), n < f → n ≠ 0 →
      Nat.toDigitsCore 10 f n ds =
        ((Nat.digits 10 n).map Nat.digitChar).reverse ++ ds := by
  induction f with
  | zero => intro n ds h _; omega
  | succ f ih =>
      intro n ds hlt hn
      rw [Nat.toDigitsCore]
      by_cases h10 : n / 10 = 0
      · rw [if_pos h10,
          Nat.digits_def' (by norm_num : (1:ℕ) < 10) (Nat.pos_of_ne_zero hn),
          h10]
        simp
      · rw [if_neg h10]
        have hdiv : n / 10 < n :=
          Nat.div_lt_self (Nat.pos_of_ne_zero hn) (by norm_num)
        rw [ih (n / 10) _ (by omega) h10,
          Nat.digits_def' (by norm_num : (1:ℕ) < 10) (Nat.pos_of_ne_zero hn)]
        simp

lemma nat_repr_eq_of_ne_zero (n : Nat) (hn : n ≠ 0) :
    Nat.repr n = (((Nat.digits 10 n).map Nat.digitChar).reverse).asString := by
  unfold Nat.repr Nat.toDigits
  rw [toDigitsCore_eq_digits (n + 1) n [] (Nat.lt_succ_self n) hn]
  simp

lemma nat_repr_zero : Nat.repr 0 = "0" := rfl

lemma nat_repr_data_mem (n : Nat) :
    ∀ c ∈ (Nat.repr n).data, c ∈ decimalChars := by
  rcases eq_or_ne n 0 with rfl | hn
  · intro c hc
    rw [nat_repr_zero] at hc
    have hc0 : c = '0' := by simpa using hc
    rw [hc0]
    decide
  · intro c hc
    rw [nat_repr_eq_of_ne_zero n hn] at hc
    have hc' : c ∈ ((Nat.digits 10 n).map Nat.digitChar).reverse := hc
    rw [List.mem_reverse] at hc'
    obtain ⟨d, hd, rfl⟩ := List.mem_map.mp hc'
    exact digitChar_mem_decimalChars d (Nat.digits_lt_base (by norm_num) hd)

lemma map_digitChar_inj :
    ∀ (l1 l2 : List Nat), (∀ x ∈ l1, x < 10) → (∀ x ∈ l2, x < 10) →
      l1.map Nat.digitChar = l2.map Nat.digitChar → l1 = l2 := by
  intro l1
  induction l1 with
  | nil =>
      intro l2 _ _ h
      cases l2
      · rfl
      · simp at h
  | cons a t ih =>
      intro l2 h1 h2 h
      cases l2 with
      | nil => simp at h
      | cons b t2 =>
          simp only [List.map_cons, List.cons.injEq] at h
          obtain ⟨hab, ht⟩ := h
          have hb : a = b := digitChar_inj_lt a (h1 a (by simp)) b
            (h2 b (by simp)) hab
          subst hb
          rw [ih t2 (fun x hx => h1 x (by simp [hx]))
            (fun x hx => h2 x (by simp [hx])) ht]

lemma nat_repr_injective {m n : Nat} (h : Nat.repr m = Nat.repr n) : m = n := by
  have digits_eq : ∀ {m n : Nat}, m ≠ 0 → n ≠ 0 →
      Nat.repr m = Nat.repr n → m = n := by
    intro m n hm hn h
    rw [nat_repr_eq_of_ne_zero m hm, nat_repr_eq_of_ne_zero n hn] at h
    have hdata := congrArg String.data h
    have hrev : ((Nat.digits 10 m).map Nat.digitChar).reverse =
        ((Nat.digits 10 n).map Nat.digitChar).reverse := hdata
    have hmap := List.reverse_injective hrev
    have hdig := map_digitChar_inj _ _
      (fun x hx => Nat.digits_lt_base (by norm_num) hx)
      (fun x hx => Nat.digits_lt_base (by norm_num) hx) hmap
    have := congrArg (Nat.ofDigits 10) hdig
    rwa [Nat.ofDigits_digits, Nat.ofDigits_digits] at this
  have zero_ne : ∀ n : Nat, n ≠ 0 → Nat.repr 0 ≠ Nat.repr n := by
    intro n hn h
    rw [nat_repr_zero, nat_repr_eq_of_ne_zero n hn] at h
    have hdata := congrArg String.data h
    have h0 : (['0'] : List Char) =
        ((Nat.digits 10 n).map Nat.digitChar).reverse := hdata
    have hmap : (Nat.digits 10 n).map Nat.digitChar = ['0'] := by
      have := congrArg List.reverse h0
      simpa using this.symm
    have h00 : (Nat.digits 10 n).map Nat.digitChar = [0].map Nat.digitChar := by
      rw [hmap]
      rfl
    have hdig := map_digitChar_inj _ _
      (fun x hx => Nat.digits_lt_base (by norm_num) hx)
      (by intro x hx; simp at hx; omega) h00
    have hzero := congrArg (Nat.ofDigits 10) hdig
    rw [Nat.ofDigits_digits] at hzero
    simp [Nat.ofDigits_cons, Nat.ofDigits_nil] at hzero
    exact hn hzero
  rcases eq_or_ne m 0 with rfl | hm
  · rcases eq_or_ne n 0 with rfl | hn
    · rfl
    · exact absurd h (zero_ne n hn)
  · rcases eq_or_ne n 0 with rfl | hn
    · exact absurd h.symm (zero_ne m hm)
    · exact digits_eq hm hn h

lemma toString_int_eq_repr (i : Int) : toString i = Int.repr i := by
  cases i <;> rfl

lemma int_repr_data_mem (i : Int) :
    ∀ c ∈ (toString i).data, c ∈ '-' :: decimalChars := by
  rw [toString_int_eq_repr]
  cases i with
  | ofNat m =>
      intro c hc
      exact List.mem_cons_of_mem _ (nat_repr_data_mem m c hc)
  | negSucc m =>
      intro c hc
      have hc' : c ∈ ('-' :: (Nat.repr (m + 1)).data) := by
        simpa [Int.repr, String.data_append] using hc
      rcases hc' with _ | h
      · simp
      · exact List.mem_cons_of_mem _ (nat_repr_data_mem (m + 1) c (by assumption))

lemma int_repr_injective {i j : Int} (h : Int.repr i = Int.repr j) : i = j := by
  cases i with
  | ofNat m =>
      cases j with
      | ofNat n =>
          have hmn : m = n := nat_repr_injective (m := m) (n := n) h
          rw [hmn]
      | negSucc n =>
          exfalso
          have hdata := congrArg String.data h
          simp only [Int.repr, String.data_append] at hdata
          have hmem : '-' ∈ (Nat.repr m).data := by
            rw [hdata]
            have hminus : ("-" : String).data = ['-'] := rfl
            simp [hminus]
          have := nat_repr_data_mem m '-' hmem
          simp [decimalChars] at this
  | negSucc m =>
      cases j with
      | ofNat n =>
          exfalso
          have hdata := congrArg String.data h
          simp only [Int.repr, String.data_append] at hdata
          have hmem : '-' ∈ (Nat.repr n).data := by
            rw [← hdata]
            have hminus : ("-" : String).data = ['-'] := rfl
            simp [hminus]
          have := nat_repr_data_mem n '-' hmem
          simp [decimalChars] at this
      | negSucc n =>
          have hdata := congrArg String.data h
          simp only [Int.repr, String.data_append] at hdata
          simp only [List.cons_append, List.nil_append, List.cons.injEq] at hdata
          have hrepr : Nat.repr (m + 1) = Nat.repr (n + 1) :=
            String.ext hdata.2
          have hmn : m + 1 = n + 1 := nat_repr_injective hrepr
          have : m = n := by omega
          rw [this]

/-- The trace identifier is injective in the unix-seconds tick: two runs
started in different whole seconds get different identifiers. -/
lemma executionTraceID_injective {t1 t2 : Int} (h : t1 ≠ t2) :
    ExecutionTraceID t1 ≠ ExecutionTraceID t2 := by
  intro habs
  apply h
  unfold ExecutionTraceID at habs
  rw [toString_int_eq_repr, toString_int_eq_repr] at habs
  exact int_repr_injective habs

end ProxyInit

namespace ProxyInit

/-- A command is a redirect rule iff its argument vector carries the
iptables `REDIRECT` jump target. -/
def isRedirectCmd (c : List String) : Bool := decide ("REDIRECT" ∈ c)

lemma toString_int_ne (i : Int) {s : String} {c : Char} (hc : c ∈ s.data)
    (hcn : c ∉ '-' :: decimalChars) : toString i ≠ s := by
  intro h
  apply hcn
  rw [← h] at hc
  exact int_repr_data_mem i c hc

lemma formatComment_head (tid text : String) :
    (formatComment tid text).data.head? = some 'p' := by
  have h1 : ("proxy-init/" : String).data = 'p' :: ("roxy-init/" : String).data :=
    rfl
  simp [formatComment, h1]

lemma formatComment_ne (tid text : String) {s : String}
    (hs : s.data.head? ≠ some 'p') : formatComment tid text ≠ s := by
  intro h
  exact hs (h ▸ formatComment_head tid text)

lemma isRedirectCmd_makeCreateNewChain (tid comment : String)
    {name : String} (hname : name ≠ "REDIRECT") :
    isRedirectCmd (makeCreateNewChain tid name comment) = false := by
  simp only [isRedirectCmd, makeCreateNewChain, decide_eq_false_iff_not]
  intro hmem
  simp only [List.mem_cons, List.not_mem_nil, or_false] at hmem
  rcases hmem with h | h | h | h | h | h | h | h | h
  all_goals first
    | exact absurd h.symm (by decide)
    | exact hname h.symm
    | exact absurd h.symm
        (formatComment_ne tid comment (s := "REDIRECT") (by decide))

lemma isRedirectCmd_makeIgnorePort (tid comment : String) (p : Int)
    {chain : String} (hchain : chain ≠ "REDIRECT") :
    isRedirectCmd (makeIgnorePort tid chain p comment) = false := by
  simp only [isRedirectCmd, makeIgnorePort, decide_eq_false_iff_not]
  intro hmem
  simp only [List.mem_cons, List.not_mem_nil, or_false] at hmem
  rcases hmem with h | h | h | h | h | h | h | h | h | h | h | h | h | h | h
  all_goals first
    | exact absurd h.symm (by decide)
    | exact hchain h.symm
    | exact absurd h.symm
        (toString_int_ne p (s := "REDIRECT") (c := 'R') (by decide) (by decide))
    | exact absurd h.symm
        (formatComment_ne tid comment (s := "REDIRECT") (by decide))

lemma isRedirectCmd_makeJump (tid comment : String) (delete : Bool)
    {chain target : String} (hchain : chain ≠ "REDIRECT")
    (htarget : target ≠ "REDIRECT") :
    isRedirectCmd
      (makeJumpFromChainToAnotherForAllProtocols tid chain target comment
        delete) = false := by
  simp only [isRedirectCmd, makeJumpFromChainToAnotherForAllProtocols,
    decide_eq_false_iff_not]
  intro hmem
  simp only [List.mem_cons, List.not_mem_nil, or_false] at hmem
  rcases hmem with h | h | h | h | h | h | h | h | h | h | h
  all_goals first
    | exact absurd h.symm (by decide)
    | exact hchain h.symm
    | exact htarget h.symm
    | exact absurd h.symm
        (formatComment_ne tid comment (s := "REDIRECT") (by decide))
    | (cases delete <;> exact absurd h.symm (by decide))

lemma isRedirectCmd_makeRedirectChainToPort (tid chain comment : String)
    (port : Int) :
    isRedirectCmd (makeRedirectChainToPort tid chain port comment) = true := by
  simp [isRedirectCmd, makeRedirectChainToPort]

lemma isRedirectCmd_makeRedirectDest (tid chain comment : String)
    (dport port : Int) :
    isRedirectCmd
      (makeRedirectChainToPortBasedOnDestinationPort tid chain dport port
        comment) = true := by
  simp [isRedirectCmd, makeRedirectChainToPortBasedOnDestinationPort]

/-- The number of redirect rules in the inbound transaction is entirely
determined by the mode-dispatch block. -/
lemma countP_incoming (tid : String) (cfg : FirewallConfiguration) :
    (addIncomingTrafficRules tid [] cfg).countP isRedirectCmd =
      (inboundModeRules tid redirectChainName cfg).countP isRedirectCmd := by
  rw [addIncomingTrafficRules_eq]
  unfold incomingRules
  simp only [List.nil_append, List.countP_append]
  rw [List.countP_cons_of_neg _ _
    (by rw [isRedirectCmd_makeCreateNewChain tid _ (by decide)]; simp)]
  rw [show ([makeJumpFromChainToAnotherForAllProtocols tid
      IptablesPreroutingChainName redirectChainName
      "install-proxy-init-prerouting" false].countP isRedirectCmd) = 0 from ?_]
  · rw [show (ignorePortRules tid redirectChainName
        cfg.InboundPortsToIgnore).countP isRedirectCmd = 0 from ?_]
    · simp [List.countP_nil]
    · rw [List.countP_eq_zero]
      intro c hc
      obtain ⟨p, _, rfl⟩ := List.mem_map.mp hc
      rw [isRedirectCmd_makeIgnorePort tid _ p (by decide)]
      simp
  · rw [List.countP_eq_zero]
    intro c hc
    simp only [List.mem_singleton] at hc
    subst hc
    rw [isRedirectCmd_makeJump tid _ false (by decide) (by decide)]
    simp

lemma countP_inboundModeRules_all (tid : String) (cfg : FirewallConfiguration)
    (h : cfg.Mode = RedirectAllMode) :
    (inboundModeRules tid redirectChainName cfg).countP isRedirectCmd = 1 := by
  unfold inboundModeRules
  rw [if_pos h]
  rw [List.countP_cons_of_pos _ _ (by
    rw [isRedirectCmd_makeRedirectChainToPort])]
  simp [List.countP_nil]

lemma countP_inboundModeRules_listed (tid : String)
    (cfg : FirewallConfiguration) (h : cfg.Mode = RedirectListedMode) :
    (inboundModeRules tid redirectChainName cfg).countP isRedirectCmd =
      cfg.PortsToRedirectInbound.length := by
  unfold inboundModeRules
  rw [if_neg (by rw [h]; decide), if_pos h]
  unfold listedRedirectRules
  rw [List.countP_map, List.countP_eq_length]
  intro p _
  simp only [Function.comp]
  rw [isRedirectCmd_makeRedirectDest]

lemma countP_inboundModeRules_other (tid : String)
    (cfg : FirewallConfiguration) (h1 : cfg.Mode ≠ RedirectAllMode)
    (h2 : cfg.Mode ≠ RedirectListedMode) :
    (inboundModeRules tid redirectChainName cfg).countP isRedirectCmd = 0 := by
  unfold inboundModeRules
  rw [if_neg h1, if_neg h2]
  simp

end ProxyInit

namespace ProxyInit

lemma executeCommand_sim {cfg : FirewallConfiguration} (o : Nat → Bool)
    (s : ExecState) (c : List String) (h : cfg.SimulateOnly = true) :
    executeCommand cfg o s c = (none, s) := by
  unfold executeCommand
  rw [if_pos h]

lemma executeCommand_notsim {cfg : FirewallConfiguration} (o : Nat → Bool)
    (s : ExecState) (c : List String) (h : cfg.SimulateOnly = false) :
    executeCommand cfg o s c =
      ((if o s.count then none else some (wrapCmd cfg c)),
       ⟨s.count + 1, s.trace ++ [wrapCmd cfg c]⟩) := by
  unfold executeCommand
  rw [if_neg (by rw [h]; exact Bool.false_ne_true)]

lemma runInstall_sim {cfg : FirewallConfiguration} (o : Nat → Bool)
    (h : cfg.SimulateOnly = true) :
    ∀ (l : List (List String)) (s : ExecState),
      runInstall cfg o s l = (none, s) := by
  intro l
  induction l with
  | nil => intro s; rfl
  | cons c rest ih =>
      intro s
      unfold runInstall
      rw [executeCommand_sim o s c h]
      exact ih s

lemma runInstall_cons_true {cfg : FirewallConfiguration} (o : Nat → Bool)
    (s : ExecState) (c : List String) (rest : List (List String))
    (h : cfg.SimulateOnly = false) (h0 : o s.count = true) :
    runInstall cfg o s (c :: rest) =
      runInstall cfg o ⟨s.count + 1, s.trace ++ [wrapCmd cfg c]⟩ rest := by
  conv_lhs => rw [runInstall]
  rw [executeCommand_notsim o s c h, if_pos h0]

lemma runInstall_cons_false {cfg : FirewallConfiguration} (o : Nat → Bool)
    (s : ExecState) (c : List String) (rest : List (List String))
    (h : cfg.SimulateOnly = false) (h0 : o s.count = false) :
    runInstall cfg o s (c :: rest) =
      (some (wrapCmd cfg c), ⟨s.count + 1, s.trace ++ [wrapCmd cfg c]⟩) := by
  conv_lhs => rw [runInstall]
  rw [executeCommand_notsim o s c h, h0]
  simp

lemma runInstall_success {cfg : FirewallConfiguration} (o : Nat → Bool)
    (h : cfg.SimulateOnly = false) :
    ∀ (l : List (List String)) (s : ExecState),
      (∀ k < l.length, o (s.count + k) = true) →
      runInstall cfg o s l =
        (none, ⟨s.count + l.length, s.trace ++ l.map (wrapCmd cfg)⟩) := by
  intro l
  induction l with
  | nil =>
      intro s _
      simp [runInstall]
  | cons c rest ih =>
      intro s hall
      have h0 : o s.count = true := by
        have := hall 0 (by simp)
        simpa using this
      rw [runInstall_cons_true o s c rest h h0]
      have hrest : ∀ k < rest.length,
          o ((⟨s.count + 1, s.trace ++ [wrapCmd cfg c]⟩ : ExecState).count + k)
            = true := by
        intro k hk
        have := hall (k + 1) (by simp; omega)
        simpa [Nat.add_assoc, Nat.add_comm 1 k] using this
      rw [ih _ hrest]
      simp [Nat.add_assoc, Nat.add_comm 1 rest.length]

lemma runInstall_fail {cfg : FirewallConfiguration} (o : Nat → Bool)
    (h : cfg.SimulateOnly = false) :
    ∀ (l : List (List String)) (s : ExecState) (k : Nat) (hk : k < l.length),
      (∀ j < k, o (s.count + j) = true) → o (s.count + k) = false →
      runInstall cfg o s l =
        (some (wrapCmd cfg (l.get ⟨k, hk⟩)),
         ⟨s.count + k + 1, s.trace ++ (l.take (k + 1)).map (wrapCmd cfg)⟩) := by
  intro l
  induction l with
  | nil =>
      intro s k hk hbef hfail
      simp at hk
  | cons c rest ih =>
      intro s k hk hbef hfail
      cases k with
      | zero =>
          have h0 : o s.count = false := by simpa using hfail
          rw [runInstall_cons_false o s c rest h h0]
          simp
      | succ k =>
          have h0 : o s.count = true := by
            have := hbef 0 (by omega)
            simpa using this
          rw [runInstall_cons_true o s c rest h h0]
          have hk' : k < rest.length := by simpa using hk
          have hbef' : ∀ j < k,
              o ((⟨s.count + 1, s.trace ++ [wrapCmd cfg c]⟩ : ExecState).count
                + j) = true := by
            intro j hj
            have := hbef (j + 1) (by omega)
            simpa [Nat.add_assoc, Nat.add_comm 1 j] using this
          have hfail' :
              o ((⟨s.count + 1, s.trace ++ [wrapCmd cfg c]⟩ : ExecState).count
                + k) = false := by
            simpa [Nat.add_assoc, Nat.add_comm 1 k] using hfail
          rw [ih _ k hk' hbef' hfail']
          simp only [List.get_cons_succ, List.take_succ_cons, List.map_cons,
            Prod.mk.injEq, ExecState.mk.injEq]
          refine ⟨trivial, by omega, by simp⟩

end ProxyInit

namespace ProxyInit

lemma configureFirewall_sim (tid : String) (cfg : FirewallConfiguration)
    (o : Nat → Bool) (h : cfg.SimulateOnly = true) :
    ConfigureFirewall tid cfg o = (none, ⟨0, []⟩) := by
  unfold ConfigureFirewall
  simp only [executeCommand_sim _ _ _ h, runInstall_sim _ h,
    Option.isSome_none, Bool.false_eq_true, if_false]

lemma configureFirewall_dump_fail (tid : String)
    (cfg : FirewallConfiguration) (o : Nat → Bool)
    (hsim : cfg.SimulateOnly = false) (h0 : o 0 = false) :
    ConfigureFirewall tid cfg o =
      (some (wrapCmd cfg makeShowAllRules),
       ⟨1, [wrapCmd cfg makeShowAllRules]⟩) := by
  unfold ConfigureFirewall
  simp only [executeCommand_notsim _ _ _ hsim]
  simp [h0]

end ProxyInit

namespace ProxyInit

lemma configureFirewall_success (tid : String) (cfg : FirewallConfiguration)
    (o : Nat → Bool) (hsim : cfg.SimulateOnly = false) (h0 : o 0 = true)
    (hall : ∀ k < (installCommands tid cfg).length, o (7 + k) = true) :
    ConfigureFirewall tid cfg o =
      (none,
       ⟨8 + (installCommands tid cfg).length,
        ((makeShowAllRules :: cleanupCommands tid) ++ installCommands tid cfg
          ++ [makeShowAllRules]).map (wrapCmd cfg)⟩) := by
  unfold ConfigureFirewall
  simp only [executeCommand_notsim _ _ _ hsim, h0, if_true]
  rw [runInstall_success o hsim _ _ (by intro k hk; simpa using hall k hk)]
  simp [cleanupCommands]
  omega

end ProxyInit

namespace ProxyInit

lemma configureFirewall_fail_at (tid : String) (cfg : FirewallConfiguration)
    (o : Nat → Bool) (hsim : cfg.SimulateOnly = false) (h0 : o 0 = true)
    (k : Nat) (hk : k < (installCommands tid cfg).length)
    (hbef : ∀ j < k, o (7 + j) = true) (hfail : o (7 + k) = false) :
    ConfigureFirewall tid cfg o =
      (some (wrapCmd cfg ((installCommands tid cfg).get ⟨k, hk⟩)),
       ⟨8 + k,
        ((makeShowAllRules :: cleanupCommands tid)
          ++ (installCommands tid cfg).take (k + 1)).map (wrapCmd cfg)⟩) := by
  unfold ConfigureFirewall
  simp only [executeCommand_notsim _ _ _ hsim, h0, if_true]
  rw [runInstall_fail o hsim _ _ k hk
    (by intro j hj; simpa using hbef j hj)
    (by simpa using hfail)]
  simp [cleanupCommands]
  omega

end ProxyInit

namespace ProxyInit

lemma installCommands_ne_nil (tid : String) (cfg : FirewallConfiguration) :
    installCommands tid cfg ≠ [] := by
  rw [installCommands_eq]
  intro h
  rcases List.append_eq_nil.mp h with ⟨h1, _⟩
  unfold incomingRules at h1
  simp at h1

lemma oracle_first_failure (o : Nat → Bool) (n : Nat)
    (hnot : ¬ ∀ k < n, o (7 + k) = true) :
    ∃ k, k < n ∧ (∀ j < k, o (7 + j) = true) ∧ o (7 + k) = false := by
  push_neg at hnot
  obtain ⟨k, hk, hfalse⟩ := hnot
  have hex : ∃ m, m < n ∧ o (7 + m) = false :=
    ⟨k, hk, by cases hcase : o (7 + k) <;> simp_all⟩
  refine ⟨Nat.find hex, (Nat.find_spec hex).1, ?_, (Nat.find_spec hex).2⟩
  intro j hj
  by_contra hne
  have hjf : o (7 + j) = false := by cases hcase : o (7 + j) <;> simp_all
  have hjn : j < n := lt_trans hj (Nat.find_spec hex).1
  exact Nat.find_min hex hj ⟨hjn, hjf⟩

/-- The command carries an iptables comment of the run's tagged form
`proxy-init/<label>/<tid>` attached as the trailing
`-m comment --comment <...>` group. -/
def hasProxyInitComment (tid : String) (c : List String) : Prop :=
  ∃ pre label,
    c = pre ++ ["-m", "comment", "--comment", formatComment tid label]

lemma hasComment_makeCreateNewChain (tid name comment : String) :
    hasProxyInitComment tid (makeCreateNewChain tid name comment) :=
  ⟨["iptables", "-t", "nat", "-N", name], comment, rfl⟩

lemma hasComment_makeIgnoreUserID (tid chain : String) (uid : Int)
    (comment : String) :
    hasProxyInitComment tid (makeIgnoreUserID tid chain uid comment) :=
  ⟨["iptables", "-t", "nat", "-A", chain, "-m", "owner", "--uid-owner",
    toString uid, "-j", "RETURN"], comment, rfl⟩

lemma hasComment_makeRedirectChainToPort (tid chain : String) (port : Int)
    (comment : String) :
    hasProxyInitComment tid (makeRedirectChainToPort tid chain port comment) :=
  ⟨["iptables", "-t", "nat", "-A", chain, "-p", "tcp", "-j", "REDIRECT",
    "--to-port", toString port], comment, rfl⟩

lemma hasComment_makeIgnorePort (tid chain : String) (port : Int)
    (comment : String) :
    hasProxyInitComment tid (makeIgnorePort tid chain port comment) :=
  ⟨["iptables", "-t", "nat", "-A", chain, "-p", "tcp", "--destination-port",
    toString port, "-j", "RETURN"], comment, rfl⟩

lemma hasComment_makeIgnoreLoopback (tid chain comment : String) :
    hasProxyInitComment tid (makeIgnoreLoopback tid chain comment) :=
  ⟨["iptables", "-t", "nat", "-A", chain, "-o", "lo", "-j", "RETURN"],
   comment, rfl⟩

lemma hasComment_makeRedirectDest (tid chain : String) (dport port : Int)
    (comment : String) :
    hasProxyInitComment tid
      (makeRedirectChainToPortBasedOnDestinationPort tid chain dport port
        comment) :=
  ⟨["iptables", "-t", "nat", "-A", chain, "-p", "tcp", "--destination-port",
    toString dport, "-j", "REDIRECT", "--to-port", toString port],
   comment, rfl⟩

lemma hasComment_makeJump (tid chain target comment : String) (delete : Bool) :
    hasProxyInitComment tid
      (makeJumpFromChainToAnotherForAllProtocols tid chain target comment
        delete) :=
  ⟨["iptables", "-t", "nat", if delete then "-D" else "-A", chain, "-j",
    target], comment, rfl⟩

lemma hasComment_makeRedirectChainForOutgoingTraffic
    (tid chain target : String) (uid : Int) (comment : String) :
    hasProxyInitComment tid
      (makeRedirectChainForOutgoingTraffic tid chain target uid comment) :=
  ⟨["iptables", "-t", "nat", "-A", chain, "-m", "owner", "--uid-owner",
    toString uid, "-o", "lo", "!", "-d 127.0.0.1/32", "-j", target],
   comment, rfl⟩

lemma hasComment_inboundModeRules (tid : String) (cfg : FirewallConfiguration) :
    ∀ c ∈ inboundModeRules tid redirectChainName cfg,
      hasProxyInitComment tid c := by
  unfold inboundModeRules
  split
  · intro c hc
    simp only [List.mem_singleton] at hc
    subst hc
    exact hasComment_makeRedirectChainToPort ..
  · split
    · intro c hc
      unfold listedRedirectRules at hc
      obtain ⟨p, _, rfl⟩ := List.mem_map.mp hc
      exact hasComment_makeRedirectDest ..
    · simp

lemma hasComment_ignorePortRules (tid chain : String) (ports : List Int) :
    ∀ c ∈ ignorePortRules tid chain ports, hasProxyInitComment tid c := by
  intro c hc
  unfold ignorePortRules at hc
  obtain ⟨p, _, rfl⟩ := List.mem_map.mp hc
  exact hasComment_makeIgnorePort ..

lemma hasComment_incomingRules (tid : String) (cfg : FirewallConfiguration) :
    ∀ c ∈ incomingRules tid cfg, hasProxyInitComment tid c := by
  intro c hc
  unfold incomingRules at hc
  simp only [List.mem_append, List.mem_singleton] at hc
  rcases hc with ((hc | hc) | hc) | hc
  · subst hc; exact hasComment_makeCreateNewChain ..
  · exact hasComment_ignorePortRules tid _ _ c hc
  · exact hasComment_inboundModeRules tid cfg c hc
  · subst hc; exact hasComment_makeJump ..

lemma hasComment_outgoingRules (tid : String) (cfg : FirewallConfiguration) :
    ∀ c ∈ outgoingRules tid cfg, hasProxyInitComment tid c := by
  intro c hc
  unfold outgoingRules at hc
  simp only [List.mem_append, List.mem_singleton] at hc
  rcases hc with ((hc | hc) | hc) | hc
  · split at hc
    · simp only [List.mem_cons, List.not_mem_nil, or_false] at hc
      rcases hc with hc | hc | hc
      · subst hc; exact hasComment_makeCreateNewChain ..
      · subst hc; exact hasComment_makeRedirectChainForOutgoingTraffic ..
      · subst hc; exact hasComment_makeIgnoreUserID ..
    · simp only [List.mem_singleton] at hc
      subst hc; exact hasComment_makeCreateNewChain ..
  · subst hc; exact hasComment_makeIgnoreLoopback ..
  · exact hasComment_ignorePortRules tid _ _ c hc
  · simp only [List.mem_cons, List.not_mem_nil, or_false] at hc
    rcases hc with hc | hc
    · subst hc; exact hasComment_makeRedirectChainToPort ..
    · subst hc; exact hasComment_makeJump ..

lemma hasComment_installCommands (tid : String) (cfg : FirewallConfiguration) :
    ∀ c ∈ installCommands tid cfg, hasProxyInitComment tid c := by
  intro c hc
  rw [installCommands_eq] at hc
  rcases List.mem_append.mp hc with hc | hc
  · exact hasComment_incomingRules tid cfg c hc
  · exact hasComment_outgoingRules tid cfg c hc

end ProxyInit

namespace ProxyInit

/-- A representative configuration (redirect-all, proxy uid set). -/
def cfgEx : FirewallConfiguration :=
  ⟨"redirect-all", [], [], [], 4143, 4140, 2102, false, "", false⟩

/-- RedirectListed configuration with an empty redirect list. -/
def cfgListedEmpty : FirewallConfiguration :=
  ⟨"redirect-listed", [], [7777], [], 4143, 4140, 2102, false, "", false⟩

/-- RedirectAll configuration with a (to-be-ignored) non-empty
`PortsToRedirectInbound`. -/
def cfgAll : FirewallConfiguration :=
  ⟨"redirect-all", [8080, 9090], [], [], 4143, 4140, 0, false, "", false⟩

/-- A live-run configuration used for driver witnesses. -/
def cfgRun : FirewallConfiguration :=
  ⟨"redirect-all", [], [], [9999], 4143, 4140, 2102, false, "", false⟩

/-- A dry-run configuration (`SimulateOnly = true`). -/
def cfgSim : FirewallConfiguration :=
  ⟨"redirect-listed", [8080], [], [], 4143, 4140, 2102, true, "", false⟩

/-- A configuration targeting a non-default network namespace. -/
def cfgNs : FirewallConfiguration :=
  ⟨"redirect-all", [], [], [], 4143, 4140, 2102, false,
   "/var/run/netns/pod0", true⟩

/-- A configuration with an unrecognized mode string. -/
def cfgBogus : FirewallConfiguration :=
  ⟨"redirect-some", [1], [2], [3], 4143, 4140, 0, false, "", false⟩

/-- An execution boundary on which every dispatch succeeds. -/
def oAll : Nat → Bool := fun _ => true

/-- An execution boundary failing exactly the six cleanup dispatches
(indices 1–6). -/
def oCleanupFail : Nat → Bool := fun n => decide (n = 0 ∨ 6 < n)

/-- An execution boundary on which every dispatch fails. -/
def oFail : Nat → Bool := fun _ => false

/-- C1: for every configuration, the outbound (OUTPUT-side) transaction is
exactly: create the custom chain; when `ProxyUID > 0`, the hairpin jump
rule then the generic uid RETURN exemption; the loopback exemption; one
port exemption per entry of `OutboundPortsToIgnore` in the list's order;
the unconditional catch-all redirect to `ProxyOutgoingPort`; and last the
jump from `OUTPUT` into the custom chain. In particular every exemption
rule appears strictly before the catch-all redirect. -/
theorem C1_outbound_rule_order (tid : String) (cfg : FirewallConfiguration) :
    addOutgoingTrafficRules tid [] cfg =
      (if cfg.ProxyUID > 0 then
        [makeCreateNewChain tid outputChainName "redirect-common-chain",
         makeRedirectChainForOutgoingTraffic tid outputChainName
           redirectChainName cfg.ProxyUID
           "redirect-non-loopback-local-traffic",
         makeIgnoreUserID tid outputChainName cfg.ProxyUID
           "ignore-proxy-user-id"]
       else [makeCreateNewChain tid outputChainName "redirect-common-chain"])
      ++ [makeIgnoreLoopback tid outputChainName "ignore-loopback"]
      ++ cfg.OutboundPortsToIgnore.map (fun p =>
           makeIgnorePort tid outputChainName p
             ("ignore-port-" ++ toString p))
      ++ [makeRedirectChainToPort tid outputChainName cfg.ProxyOutgoingPort
            "redirect-all-outgoing-to-proxy-port",
          makeJumpFromChainToAnotherForAllProtocols tid
            IptablesOutputChainName outputChainName
            "install-proxy-init-output" false] := by
  rw [addOutgoingTrafficRules_eq]
  simp [outgoingRules, ignorePortRules]

/-- C2 as stated is false on the code: `ConfigureFirewall` composes
`addIncomingTrafficRules` before `addOutgoingTrafficRules`, so the first
element of the composed installation sequence is the inbound create-chain
mutation for `PROXY_INIT_REDIRECT` while the outbound create-chain mutation
occurs strictly later — an inbound mutation precedes an outbound one,
refuting "every outbound mutation precedes every inbound mutation". -/
theorem C2_counterexample :
    (installCommands "0" cfgEx).head? =
      some (makeCreateNewChain "0" redirectChainName "redirect-common-chain")
    ∧ makeCreateNewChain "0" outputChainName "redirect-common-chain"
        ∈ (installCommands "0" cfgEx).drop 1 := by
  constructor
  · rfl
  · decide

/-- C2 amended: in the composed installation sequence every mutation of the
inbound (PREROUTING-side) transaction precedes every mutation of the
outbound (OUTPUT-side) transaction: the sequence is exactly the inbound
transaction followed by the outbound transaction. -/
theorem C2_amended_inbound_before_outbound (tid : String)
    (cfg : FirewallConfiguration) :
    installCommands tid cfg =
      addIncomingTrafficRules tid [] cfg
        ++ addOutgoingTrafficRules tid [] cfg := by
  rw [installCommands_eq, addIncomingTrafficRules_eq,
    addOutgoingTrafficRules_eq]
  simp

/-- C3: in RedirectListed mode the inbound transaction is exactly: create
the redirect chain; one port exemption per inbound-ignored port; one
port-conditional redirect to `ProxyInboundPort` per entry of
`PortsToRedirectInbound` in the list's order; then the jump from
`PREROUTING` — and the number of redirect rules equals the length of
`PortsToRedirectInbound` (zero redirect rules for the empty list, while the
create-chain and jump mutations remain). -/
theorem C3_redirect_listed_inbound (tid : String)
    (cfg : FirewallConfiguration) (h : cfg.Mode = RedirectListedMode) :
    addIncomingTrafficRules tid [] cfg =
      [makeCreateNewChain tid redirectChainName "redirect-common-chain"]
      ++ cfg.InboundPortsToIgnore.map (fun p =>
           makeIgnorePort tid redirectChainName p
             ("ignore-port-" ++ toString p))
      ++ cfg.PortsToRedirectInbound.map (fun port =>
           makeRedirectChainToPortBasedOnDestinationPort tid
             redirectChainName port cfg.ProxyInboundPort
             ("redirect-port-" ++ toString port ++ "-to-proxy-port"))
      ++ [makeJumpFromChainToAnotherForAllProtocols tid
            IptablesPreroutingChainName redirectChainName
            "install-proxy-init-prerouting" false]
    ∧ (addIncomingTrafficRules tid [] cfg).countP isRedirectCmd =
        cfg.PortsToRedirectInbound.length := by
  constructor
  · rw [addIncomingTrafficRules_eq]
    unfold incomingRules inboundModeRules
    rw [if_neg (by rw [h]; decide), if_pos h]
    simp [ignorePortRules, listedRedirectRules]
  · rw [countP_incoming, countP_inboundModeRules_listed tid cfg h]

theorem C3_witness :
    cfgListedEmpty.Mode = RedirectListedMode ∧
      (addIncomingTrafficRules "1700000000" [] cfgListedEmpty =
        [makeCreateNewChain "1700000000" redirectChainName
          "redirect-common-chain"]
        ++ cfgListedEmpty.InboundPortsToIgnore.map (fun p =>
             makeIgnorePort "1700000000" redirectChainName p
               ("ignore-port-" ++ toString p))
        ++ cfgListedEmpty.PortsToRedirectInbound.map (fun port =>
             makeRedirectChainToPortBasedOnDestinationPort "1700000000"
               redirectChainName port cfgListedEmpty.ProxyInboundPort
               ("redirect-port-" ++ toString port ++ "-to-proxy-port"))
        ++ [makeJumpFromChainToAnotherForAllProtocols "1700000000"
              IptablesPreroutingChainName redirectChainName
              "install-proxy-init-prerouting" false]
      ∧ (addIncomingTrafficRules "1700000000" [] cfgListedEmpty).countP
          isRedirectCmd = cfgListedEmpty.PortsToRedirectInbound.length) :=
  ⟨rfl, C3_redirect_listed_inbound "1700000000" cfgListedEmpty rfl⟩

/-- C4: in RedirectAll mode the inbound transaction contains exactly one
unconditional redirect rule, targeting `ProxyInboundPort`, regardless of
the contents of `PortsToRedirectInbound` (which does not occur in the
result). -/
theorem C4_redirect_all_inbound (tid : String) (cfg : FirewallConfiguration)
    (h : cfg.Mode = RedirectAllMode) :
    addIncomingTrafficRules tid [] cfg =
      [makeCreateNewChain tid redirectChainName "redirect-common-chain"]
      ++ cfg.InboundPortsToIgnore.map (fun p =>
           makeIgnorePort tid redirectChainName p
             ("ignore-port-" ++ toString p))
      ++ [makeRedirectChainToPort tid redirectChainName cfg.ProxyInboundPort
            "redirect-all-incoming-to-proxy-port"]
      ++ [makeJumpFromChainToAnotherForAllProtocols tid
            IptablesPreroutingChainName redirectChainName
            "install-proxy-init-prerouting" false]
    ∧ (addIncomingTrafficRules tid [] cfg).countP isRedirectCmd = 1 := by
  constructor
  · rw [addIncomingTrafficRules_eq]
    unfold incomingRules inboundModeRules
    rw [if_pos h]
    simp [ignorePortRules]
  · rw [countP_incoming, countP_inboundModeRules_all tid cfg h]

theorem C4_witness :
    cfgAll.Mode = RedirectAllMode ∧
      (addIncomingTrafficRules "1700000000" [] cfgAll =
        [makeCreateNewChain "1700000000" redirectChainName
          "redirect-common-chain"]
        ++ cfgAll.InboundPortsToIgnore.map (fun p =>
             makeIgnorePort "1700000000" redirectChainName p
               ("ignore-port-" ++ toString p))
        ++ [makeRedirectChainToPort "1700000000" redirectChainName
              cfgAll.ProxyInboundPort "redirect-all-incoming-to-proxy-port"]
        ++ [makeJumpFromChainToAnotherForAllProtocols "1700000000"
              IptablesPreroutingChainName redirectChainName
              "install-proxy-init-prerouting" false]
      ∧ (addIncomingTrafficRules "1700000000" [] cfgAll).countP
          isRedirectCmd = 1) :=
  ⟨rfl, C4_redirect_all_inbound "1700000000" cfgAll rfl⟩

end ProxyInit

namespace ProxyInit

/-- C5: with the initial dump succeeding (index 0), (i) if every
installation dispatch succeeds, the run returns success with the complete
dispatch trace — the six cleanup verdicts (dispatch indices 1–6) are left
unconstrained, so an execution failure of any cleanup mutation never makes
`ConfigureFirewall` return an error or stop — and (ii) if the k-th
installation command is the first to fail, the run returns that command's
error immediately, and the dispatch trace ends with that very command: no
subsequent mutation is dispatched and no rollback of the already-applied
prefix is attempted. -/
theorem C5_phase_failure_policy (tid : String) (cfg : FirewallConfiguration)
    (o : Nat → Bool) (hsim : cfg.SimulateOnly = false) (h0 : o 0 = true) :
    ((∀ k < (installCommands tid cfg).length, o (7 + k) = true) →
      ConfigureFirewall tid cfg o =
        (none,
         ⟨8 + (installCommands tid cfg).length,
          ((makeShowAllRules :: cleanupCommands tid)
            ++ installCommands tid cfg
            ++ [makeShowAllRules]).map (wrapCmd cfg)⟩))
    ∧ (∀ (k : Nat) (hk : k < (installCommands tid cfg).length),
        (∀ j < k, o (7 + j) = true) → o (7 + k) = false →
        ConfigureFirewall tid cfg o =
          (some (wrapCmd cfg ((installCommands tid cfg).get ⟨k, hk⟩)),
           ⟨8 + k,
            ((makeShowAllRules :: cleanupCommands tid)
              ++ (installCommands tid cfg).take (k + 1)).map
                (wrapCmd cfg)⟩)) :=
  ⟨fun hall => configureFirewall_success tid cfg o hsim h0 hall,
   fun k hk hbef hfail =>
     configureFirewall_fail_at tid cfg o hsim h0 k hk hbef hfail⟩

theorem C5_witness :
    cfgRun.SimulateOnly = false ∧ oCleanupFail 0 = true ∧
      ConfigureFirewall "0" cfgRun oCleanupFail =
        (none,
         ⟨8 + (installCommands "0" cfgRun).length,
          ((makeShowAllRules :: cleanupCommands "0")
            ++ installCommands "0" cfgRun
            ++ [makeShowAllRules]).map (wrapCmd cfgRun)⟩) :=
  ⟨rfl, rfl,
   (C5_phase_failure_policy "0" cfgRun oCleanupFail rfl rfl).1 (by decide)⟩

/-- C6: a full-table diagnostic dump is the first dispatch (before any
cleanup mutation) and, on a successful run, also the last dispatch (after
installation). If the initial dump fails, `ConfigureFirewall` returns that
error with nothing else dispatched; the verdict of the final dump (index
`7 + n`) is unconstrained in the success case, so its failure does not
change the successful return value. -/
theorem C6_diagnostic_dumps (tid : String) (cfg : FirewallConfiguration)
    (o : Nat → Bool) (hsim : cfg.SimulateOnly = false) :
    (o 0 = false →
      ConfigureFirewall tid cfg o =
        (some (wrapCmd cfg makeShowAllRules),
         ⟨1, [wrapCmd cfg makeShowAllRules]⟩))
    ∧ (o 0 = true →
       (∀ k < (installCommands tid cfg).length, o (7 + k) = true) →
       ConfigureFirewall tid cfg o =
         (none,
          ⟨8 + (installCommands tid cfg).length,
           ((makeShowAllRules :: cleanupCommands tid)
             ++ installCommands tid cfg
             ++ [makeShowAllRules]).map (wrapCmd cfg)⟩)) :=
  ⟨fun h0 => configureFirewall_dump_fail tid cfg o hsim h0,
   fun h0 hall => configureFirewall_success tid cfg o hsim h0 hall⟩

theorem C6_witness :
    cfgRun.SimulateOnly = false ∧ oFail 0 = false ∧
      ConfigureFirewall "0" cfgRun oFail =
        (some (wrapCmd cfgRun makeShowAllRules),
         ⟨1, [wrapCmd cfgRun makeShowAllRules]⟩) :=
  ⟨rfl, rfl, (C6_diagnostic_dumps "0" cfgRun oFail rfl).1 rfl⟩

/-- C7: under `SimulateOnly` the composed installation sequence is
non-empty, yet `ConfigureFirewall` returns success having dispatched
nothing at all (zero dispatched commands, empty dispatch trace) — the live
rule table is untouched. -/
theorem C7_simulate_only (tid : String) (cfg : FirewallConfiguration)
    (o : Nat → Bool) (h : cfg.SimulateOnly = true) :
    installCommands tid cfg ≠ [] ∧
      ConfigureFirewall tid cfg o = (none, ⟨0, []⟩) :=
  ⟨installCommands_ne_nil tid cfg, configureFirewall_sim tid cfg o h⟩

theorem C7_witness :
    cfgSim.SimulateOnly = true ∧
      (installCommands "0" cfgSim ≠ [] ∧
        ConfigureFirewall "0" cfgSim oAll = (none, ⟨0, []⟩)) :=
  ⟨rfl, C7_simulate_only "0" cfgSim oAll rfl⟩

/-- C8 as stated is false on the code: the flush-chain and delete-chain
mutations carry no comment at all — their argument vectors are exactly
`iptables -t nat -F <chain>` resp. `-X <chain>`, containing no
`--comment` flag, so they cannot carry a `proxy-init/...` comment. -/
theorem C8_counterexample :
    makeFlushChain outputChainName =
      ["iptables", "-t", "nat", "-F", "PROXY_INIT_OUTPUT"]
    ∧ "--comment" ∉ makeFlushChain outputChainName
    ∧ "--comment" ∉ makeDeleteChain redirectChainName := by
  refine ⟨rfl, ?_, ?_⟩ <;> decide

/-- C8 amended: every constructed rule mutation except the chain flush and
chain delete — that is, every installation-phase mutation and the two
cleanup jump-deletions — carries a trailing
`-m comment --comment proxy-init/<label>/<tid>` group with the run's single
trace identifier, and identifiers of two runs started in different
whole-second ticks differ. -/
theorem C8_amended_comments (tid : String) (cfg : FirewallConfiguration) :
    (∀ c ∈ installCommands tid cfg, hasProxyInitComment tid c)
    ∧ (∀ c ∈ cleanupCommands tid,
        hasProxyInitComment tid c
        ∨ c = makeFlushChain outputChainName
        ∨ c = makeDeleteChain outputChainName
        ∨ c = makeFlushChain redirectChainName
        ∨ c = makeDeleteChain redirectChainName)
    ∧ (∀ t1 t2 : Int, t1 ≠ t2 →
        ExecutionTraceID t1 ≠ ExecutionTraceID t2) := by
  refine ⟨hasComment_installCommands tid cfg, ?_,
    fun t1 t2 h => executionTraceID_injective h⟩
  intro c hc
  unfold cleanupCommands at hc
  simp only [List.mem_cons, List.not_mem_nil, or_false] at hc
  rcases hc with hc | hc | hc | hc | hc | hc
  · subst hc; exact Or.inl (hasComment_makeJump ..)
  · subst hc; exact Or.inl (hasComment_makeJump ..)
  · subst hc; right; left; rfl
  · subst hc; right; right; left; rfl
  · subst hc; right; right; right; left; rfl
  · subst hc; right; right; right; right; rfl

theorem C8_witness :
    (0 : Int) ≠ 1 ∧ ExecutionTraceID 0 ≠ ExecutionTraceID 1 :=
  ⟨by decide, (C8_amended_comments "0" cfgEx).2.2 0 1 (by decide)⟩

end ProxyInit

namespace ProxyInit

/-- When `NetNs` is non-empty and the run is not a simulation, every
dispatched argument vector is prefixed with `nsenter --net <NetNs>` — but
this is an argv-only fact: the executed program (`cmd.Path`, see
`executedPath`) is not changed by the wrapping, which is exactly the C9
code bug established below. -/
lemma dispatched_argv_nsenter_prefix (tid : String)
    (cfg : FirewallConfiguration)
    (o : Nat → Bool) (hsim : cfg.SimulateOnly = false)
    (hns : 0 < cfg.NetNs.length) :
    ∀ c ∈ (ConfigureFirewall tid cfg o).2.trace,
      ∃ rest, c = ["nsenter", "--net", cfg.NetNs] ++ rest := by
  have hwrap : ∀ d : List String,
      ∃ rest, wrapCmd cfg d = ["nsenter", "--net", cfg.NetNs] ++ rest := by
    intro d
    unfold wrapCmd
    rw [if_pos hns]
    exact ⟨_, rfl⟩
  intro c hc
  by_cases h0 : o 0 = true
  · by_cases hall : ∀ k < (installCommands tid cfg).length, o (7 + k) = true
    · rw [configureFirewall_success tid cfg o hsim h0 hall] at hc
      obtain ⟨d, _, rfl⟩ := List.mem_map.mp hc
      exact hwrap d
    · obtain ⟨k, hk, hbef, hfail⟩ := oracle_first_failure o _ hall
      rw [configureFirewall_fail_at tid cfg o hsim h0 k hk hbef hfail] at hc
      obtain ⟨d, _, rfl⟩ := List.mem_map.mp hc
      exact hwrap d
  · have h0' : o 0 = false := by cases hcase : o 0 <;> simp_all
    rw [configureFirewall_dump_fail tid cfg o hsim h0'] at hc
    simp only [List.mem_singleton] at hc
    subst hc
    exact hwrap makeShowAllRules

/-- C9 names a code bug: for the configuration `cfgNs` (non-empty `NetNs`,
`SimulateOnly = false`), every command this run builds — the diagnostic
dump, the six cleanup mutations and the whole installation sequence — is
dispatched with an argv that begins with `nsenter`, yet the program
actually executed (`cmd.Path`, fixed by `exec.Command` and never
reassigned by the driver's `cmd.Args` mutation, iptables.go:222-227) is
still the original `iptables`/`iptables-save` binary and never the
namespace-entry helper: `nsenter` is never run, so the command does not
execute inside the target namespace as the claim (and the spec) require. -/
theorem C9_code_bug_eval :
    ((makeShowAllRules :: (cleanupCommands "0" ++ installCommands "0" cfgNs)).all
      fun c => !(executedPath c == "nsenter")
        && ((wrapCmd cfgNs c).head? == some "nsenter")) = true := by
  decide

/-- C10: for a mode string that is neither `"redirect-all"` nor
`"redirect-listed"`, the inbound transaction contains zero redirect rules
— only the create-chain mutation, the inbound ignored-port exemptions and
the jump from `PREROUTING` — and `ConfigureFirewall` reports no error for
the unrecognized mode: with an all-succeeding execution boundary the run
returns success, so the misconfiguration is a silent no-op rather than a
failure. -/
theorem C10_unrecognized_mode (tid : String) (cfg : FirewallConfiguration)
    (o : Nat → Bool) (h1 : cfg.Mode ≠ RedirectAllMode)
    (h2 : cfg.Mode ≠ RedirectListedMode) :
    (addIncomingTrafficRules tid [] cfg =
      [makeCreateNewChain tid redirectChainName "redirect-common-chain"]
      ++ cfg.InboundPortsToIgnore.map (fun p =>
           makeIgnorePort tid redirectChainName p
             ("ignore-port-" ++ toString p))
      ++ [makeJumpFromChainToAnotherForAllProtocols tid
            IptablesPreroutingChainName redirectChainName
            "install-proxy-init-prerouting" false])
    ∧ (addIncomingTrafficRules tid [] cfg).countP isRedirectCmd = 0
    ∧ ((∀ n, o n = true) → (ConfigureFirewall tid cfg o).1 = none) := by
  refine ⟨?_, ?_, ?_⟩
  · rw [addIncomingTrafficRules_eq]
    unfold incomingRules inboundModeRules
    rw [if_neg h1, if_neg h2]
    simp [ignorePortRules]
  · rw [countP_incoming, countP_inboundModeRules_other tid cfg h1 h2]
  · intro hall
    by_cases hsim : cfg.SimulateOnly = true
    · rw [configureFirewall_sim tid cfg o hsim]
    · have hsim' : cfg.SimulateOnly = false := by
        cases hcase : cfg.SimulateOnly <;> simp_all
      rw [configureFirewall_success tid cfg o hsim' (hall 0)
        (fun k _ => hall (7 + k))]

theorem C10_witness :
    cfgBogus.Mode ≠ RedirectAllMode ∧ cfgBogus.Mode ≠ RedirectListedMode ∧
      ((addIncomingTrafficRules "0" [] cfgBogus =
        [makeCreateNewChain "0" redirectChainName "redirect-common-chain"]
        ++ cfgBogus.InboundPortsToIgnore.map (fun p =>
             makeIgnorePort "0" redirectChainName p
               ("ignore-port-" ++ toString p))
        ++ [makeJumpFromChainToAnotherForAllProtocols "0"
              IptablesPreroutingChainName redirectChainName
              "install-proxy-init-prerouting" false])
      ∧ (addIncomingTrafficRules "0" [] cfgBogus).countP isRedirectCmd = 0
      ∧ ((∀ n, oAll n = true) →
          (ConfigureFirewall "0" cfgBogus oAll).1 = none)) :=
  ⟨by decide, by decide,
   C10_unrecognized_mode "0" cfgBogus oAll (by decide) (by decide)⟩

end ProxyInit
